import Mathlib

/-!
Shallow embedding of the webhook-verification and response-classification
core of the go-monobank client (options.go, run_options.go, the error
taxonomy file, and the Request getters), together with theorems checking
the specification's claims about it.

Modelling conventions:
* Byte strings that the code treats as text (HTTP bodies, headers, tokens)
  are modelled as Lean `String`; the payloads appearing in the claims are
  ASCII, so Go's byte-length and Lean's char-length coincide there.
* Raw cryptographic material (PEM bytes, DER, signatures) is `List Nat`.
* Standard-library and crypto primitives used by the code (pem.Decode,
  x509.ParsePKIXPublicKey, base64, sha256, ecdsa.VerifyASN1,
  json.Unmarshal, http.ParseTime, url.QueryEscape) and the network
  round-trip inside doJSON are external collaborators; they are bundled
  as an oracle structure `GoLib` over which the theorems quantify.
* Machine integers are modelled as `Int`/`Nat`; durations are integer
  nanoseconds as in Go's time.Duration.
-/

namespace GoMonobank

/-- Go `unicode.IsSpace` for the characters relevant to `strings.TrimSpace`. -/
def goIsSpace (c : Char) : Bool :=
  c = ' ' ∨ c = '\t' ∨ c = '\n' ∨ c = (Char.ofNat 11) ∨ c = (Char.ofNat 12) ∨ c = '\r' ∨
  c = (Char.ofNat 0x85) ∨ c = (Char.ofNat 0xA0) ∨ c = (Char.ofNat 0x1680) ∨
  (0x2000 ≤ c.toNat ∧ c.toNat ≤ 0x200A) ∨ c = (Char.ofNat 0x2028) ∨
  c = (Char.ofNat 0x2029) ∨ c = (Char.ofNat 0x202F) ∨ c = (Char.ofNat 0x205F) ∨
  c = (Char.ofNat 0x3000)

/-- Go `strings.TrimSpace`. -/
def goTrimSpace (s : String) : String :=
  String.mk (((s.data.dropWhile goIsSpace).reverse.dropWhile goIsSpace).reverse)

/-- Model: `trimBody` from the error helpers: keep at most `max` bytes of a body
(`max <= 0` keeps everything; our `max` is a `Nat`, and the code only ever
passes the positive constant 4096). -/
def trimBody (b : String) (max : Nat) : String :=
  if max = 0 ∨ b.length ≤ max then b else String.mk (b.data.take max)

/-- Decimal digits to a number; `none` on an empty or non-digit list.
Helper for the model of `strconv.Atoi`. -/
def digitsToNat (cs : List Char) : Option Nat :=
  if cs = [] then none
  else if cs.all Char.isDigit then
    some (cs.foldl (fun acc c => acc * 10 + (c.toNat - 48)) 0)
  else none

/-- Go `strconv.Atoi` (= ParseInt base 10, 64-bit): optional sign, decimal
digits, failure on anything else or on int64 overflow. -/
def goAtoi (s : String) : Option Int :=
  match s.data with
  | [] => none
  | c :: rest =>
    let signed : Bool × List Char :=
      if c = '-' then (true, rest)
      else if c = '+' then (false, rest)
      else (false, c :: rest)
    match digitsToNat signed.2 with
    | none => none
    | some n =>
      let v : Int := if signed.1 then -(n : Int) else (n : Int)
      if v < -(2 ^ 63) ∨ (2 ^ 63 : Int) ≤ v then none else some v

/-! ## Error taxonomy (errors file of the repository)

The sentinel errors `ErrValidation`, `ErrDecode`, ... are modelled as the
enumeration `ErrKind`; `errors.Is` against a sentinel is `errorsIs`.
`fmt.Errorf` results (with or without a `%w` cause) are the `wrapped`
constructor; stdlib causes (base64.CorruptInputError, x509 errors, ...)
match no sentinel and are modelled as `wrapped msg none`. `Cause` fields
of the typed errors always hold such stdlib errors in the code paths of
the claims, so they are omitted from the typed constructors. -/

inductive ErrKind where
  | validation
  | encode
  | transport
  | decode
  | badRequest
  | invalidToken
  | notFound
  | methodNotAllowed
  | rateLimited
  | serverError
  | unexpectedResponse
  | invalidSignature
  | paymentError
deriving DecidableEq, Repr

/-- The error values the client returns: one constructor per error type of
the repository, plus `wrapped` for plain `fmt.Errorf` errors. -/
inductive MbError where
  | validation (op msg : String)
  | encode (op msg : String)
  | transport (op method url : String)
  | decode (op msg body : String)
  | unexpectedResponse (op method endpoint : String) (statusCode : Nat) (msg : String)
  | api (kind : ErrKind) (method endpoint : String) (statusCode : Nat)
      (contentType errCode description body : String) (retryAfter : Option Int)
  | webhookSignature (op msg : String)
  | wrapped (msg : String) (cause : Option MbError)

/-- Model: `errors.Is(e, sentinel)`: each typed error's `Is` method matches exactly
its own sentinel; `fmt.Errorf("...%w", cause)` wrappers unwrap into the
cause; a wrapper without a sentinel cause matches nothing. -/
def errorsIs : MbError → ErrKind → Bool
  | .validation _ _, .validation => true
  | .encode _ _, .encode => true
  | .transport _ _ _, .transport => true
  | .decode _ _ _, .decode => true
  | .unexpectedResponse _ _ _ _ _, .unexpectedResponse => true
  | .api kind _ _ _ _ _ _ _ _, k => kind = k
  | .webhookSignature _ _, .invalidSignature => true
  | .wrapped _ (some e), k => errorsIs e k
  | _, _ => false

/-- Model: `RetryAfter` field of an `APIError`; `none` for every other error. -/
def MbError.retryAfterOf : MbError → Option Int
  | .api _ _ _ _ _ _ _ _ ra => ra
  | _ => none

/-- Model: `retryAfterOf` lifted to the result of a call. -/
def errRetryAfter : Except MbError Unit → Option Int
  | .error e => e.retryAfterOf
  | .ok _ => none

/-! ## JSON values and DTOs

Error bodies are modelled as already-parsed JSON documents: the text →
document step (the textual layer of `json.Unmarshal`) is the oracle
`jsonParseErrorBody`, while the document → Go-value steps (decoding into
the `apiErrorBody` struct and into `map[string]any`) are modelled
executably below. JSON numbers in the claims are integer-valued, so
numbers carry an `Int` (Go prints integral float64 values with `%d`,
which coincides with `Int` printing); nested objects/arrays do not occur
in the claims and are not modelled. Field names are matched exactly, as
all claimed field names are exact-case. -/

inductive JVal where
  | null
  | bool (b : Bool)
  | num (n : Int)
  | str (s : String)
deriving DecidableEq, Repr

/-- A top-level JSON document: an object (with distinct keys, as produced
by Go's JSON parser after duplicate-key collapsing) or a bare value. -/
inductive JDoc where
  | obj (fields : List (String × JVal))
  | val (v : JVal)
deriving DecidableEq, Repr

/-- Field lookup in a parsed JSON object (`m[k]`). -/
def jlookup (fields : List (String × JVal)) (k : String) : Option JVal :=
  match fields.find? (fun p => p.1 = k) with
  | some p => some p.2
  | none => none

/-- Model: `anyToString` from the error-body helpers: `nil` and JSON null give "",
strings are trimmed, integral numbers print via `%d`, everything else goes
through `%v` and is trimmed. -/
def anyToString : Option JVal → String
  | none => ""
  | some .null => ""
  | some (.bool b) => if b then "true" else "false"
  | some (.num n) => toString n
  | some (.str s) => goTrimSpace s

/-- Model: `firstNonEmptyString`: first value that is non-empty after trimming,
returned trimmed; "" when none qualifies. -/
def firstNonEmptyString (values : List String) : String :=
  match values.find? (fun v => goTrimSpace v ≠ "") with
  | some v => goTrimSpace v
  | none => ""

/-- The `apiErrorBody` struct: `errCode` is declared `any`, the others are
`string` fields. -/
structure ApiErrBody where
  errCode : Option JVal
  errText : String
  errorDescription : String
  message : String
  errorStr : String
  description : String
  detail : String
deriving DecidableEq, Repr

/-- Go `json.Unmarshal` of one object field into a `string` struct field:
absent or null leaves the zero value, a string is taken verbatim, any
other value is an UnmarshalTypeError (the whole decode fails). -/
def decodeStringField (fields : List (String × JVal)) (k : String) : Option String :=
  match jlookup fields k with
  | none => some ""
  | some .null => some ""
  | some (.str s) => some s
  | some _ => none

/-- Go `json.Unmarshal` of a document into the `apiErrorBody` struct. -/
def decodeApiErrBody : JDoc → Option ApiErrBody
  | .obj fields => do
    let errText ← decodeStringField fields "errText"
    let errorDescription ← decodeStringField fields "errorDescription"
    let message ← decodeStringField fields "message"
    let errorStr ← decodeStringField fields "error"
    let description ← decodeStringField fields "description"
    let detail ← decodeStringField fields "detail"
    pure { errCode := jlookup fields "errCode", errText := errText,
           errorDescription := errorDescription, message := message,
           errorStr := errorStr, description := description, detail := detail }
  | .val _ => none

/-! ## Key material, DTOs, oracle -/

/-- An ECDSA public key (curve parameters are irrelevant to the claims and
omitted; the key is an abstract value fed to the verification oracle). -/
structure ECPubKey where
  x : Int
  y : Int
deriving DecidableEq, Repr

/-- Result of `x509.ParsePKIXPublicKey`: an ECDSA key or a key of some
other algorithm family (the type assertion in the code then fails). -/
inductive PKIXKey where
  | ecdsa (k : ECPubKey)
  | other
deriving DecidableEq, Repr

/-- Webhook payload / invoice status DTO (the fields the claims touch;
the remaining DTO fields are irrelevant to control flow). -/
structure InvoiceStatusResponse where
  invoiceId : String
  status : String
deriving DecidableEq, Repr

structure InvoiceCreateResponse where
  invoiceId : String
  pageURL : String
deriving DecidableEq, Repr

structure WalletPaymentResponse where
  invoiceId : String
  status : String
deriving DecidableEq, Repr

structure PublicKeyResponse where
  key : String
deriving DecidableEq, Repr

/-- One HTTP request issued through `doJSON` (method, path, X-Token). -/
structure HttpCall where
  method : String
  path : String
  token : String
deriving DecidableEq, Repr

/-- External collaborators: stdlib/crypto primitives and the network
round-trips, as used by the client code. -/
structure GoLib where
  pemDecode : List Nat → Option (List Nat)
  parsePKIX : List Nat → Option PKIXKey
  base64Decode : String → Option (List Nat)
  sha256 : String → List Nat
  verifyASN1 : ECPubKey → List Nat → List Nat → Bool
  jsonDecodeInvoiceStatus : String → Option InvoiceStatusResponse
  jsonParseErrorBody : String → Option JDoc
  parseHTTPTime : String → Option Int
  queryEscape : String → String
  decodeOutOk : String → Bool
  doInvoiceCreate : HttpCall → Except MbError InvoiceCreateResponse
  doWalletPayment : HttpCall → Except MbError WalletPaymentResponse
  doInvoiceStatus : HttpCall → Except MbError InvoiceStatusResponse
  doPubKey : HttpCall → Except MbError PublicKeyResponse

/-! ## Key resolution (`ensureWebhookPublicKey`, `parseECDSAPublicKeyFromPEM`) -/

/-- Model: `parseECDSAPublicKeyFromPEM`: pem.Decode, x509 PKIX parse, ECDSA type
assertion; every failure is a plain (`fmt.Errorf` / stdlib) error. -/
def parseECDSAPublicKeyFromPEM (lib : GoLib) (pemBytes : List Nat) : Except MbError ECPubKey :=
  match lib.pemDecode pemBytes with
  | none => .error (.wrapped "no PEM block found" none)
  | some der =>
    match lib.parsePKIX der with
    | none => .error (.wrapped "x509: parse public key" none)
    | some (.ecdsa k) => .ok k
    | some .other => .error (.wrapped "unexpected public key type (expected ECDSA)" none)

structure ClientConfig where
  baseURL : String
  defaultToken : String
  webhookPublicKeyBase64 : String
  webhookPublicKeyPEM : List Nat
deriving DecidableEq, Repr

/-- Client state relevant to key resolution: the config and the cached
key field `pubKey` (the mutex around it serialises calls; the model is
the serialised behavior). -/
structure ClientState where
  cfg : ClientConfig
  pubKey : Option ECPubKey
deriving DecidableEq, Repr

/-- Which key sources one resolution call consulted (observable I/O). -/
structure KeyEffects where
  parsedRawPEM : Bool := false
  decodedConfigBase64 : Bool := false
  fetchedRemote : Bool := false
deriving DecidableEq, Repr

/-- Model: `PathPubKey` from the consts package. -/
def PathPubKey : String := "/api/merchant/pubkey"

/-- Message of the ValidationError returned when no key source and no
default token are configured. -/
def pubkeyNotConfiguredMsg : String :=
  "public key not configured and default token is empty; set WithWebhookPublicKeyBase64(...) or WithToken(...)"

/-- Model: `ensureWebhookPublicKey`: cached key, else raw PEM, else base64 PEM,
else remote fetch with the default token. Returns the result, the new
client state, and the effects performed. -/
def ensureWebhookPublicKey (lib : GoLib) (s : ClientState) :
    Except MbError ECPubKey × ClientState × KeyEffects :=
  match s.pubKey with
  | some pub => (.ok pub, s, {})
  | none =>
    if s.cfg.webhookPublicKeyPEM.length > 0 then
      match parseECDSAPublicKeyFromPEM lib s.cfg.webhookPublicKeyPEM with
      | .error e => (.error (.wrapped "pubkey: parse PEM" (some e)), s, { parsedRawPEM := true })
      | .ok pub => (.ok pub, { s with pubKey := some pub }, { parsedRawPEM := true })
    else if goTrimSpace s.cfg.webhookPublicKeyBase64 ≠ "" then
      match lib.base64Decode (goTrimSpace s.cfg.webhookPublicKeyBase64) with
      | none => (.error (.wrapped "pubkey: base64 decode" none), s, { decodedConfigBase64 := true })
      | some pemBytes =>
        match parseECDSAPublicKeyFromPEM lib pemBytes with
        | .error e =>
          (.error (.wrapped "pubkey: parse decoded PEM" (some e)), s, { decodedConfigBase64 := true })
        | .ok pub => (.ok pub, { s with pubKey := some pub }, { decodedConfigBase64 := true })
    else
      if goTrimSpace s.cfg.defaultToken = "" then
        (.error (.validation "pubkey" pubkeyNotConfiguredMsg), s, {})
      else
        match lib.doPubKey ⟨"GET", PathPubKey, goTrimSpace s.cfg.defaultToken⟩ with
        | .error e => (.error e, s, { fetchedRemote := true })
        | .ok resp =>
          if goTrimSpace resp.key = "" then
            (.error (.wrapped "pubkey: empty key in response" none), s, { fetchedRemote := true })
          else
            match lib.base64Decode (goTrimSpace resp.key) with
            | none =>
              (.error (.wrapped "pubkey: base64 decode fetched key" none), s, { fetchedRemote := true })
            | some pemBytes =>
              match parseECDSAPublicKeyFromPEM lib pemBytes with
              | .error e =>
                (.error (.wrapped "pubkey: parse fetched PEM" (some e)), s, { fetchedRemote := true })
              | .ok pub =>
                (.ok pub,
                 { cfg := { s.cfg with webhookPublicKeyBase64 := goTrimSpace resp.key },
                   pubKey := some pub },
                 { fetchedRemote := true })

/-! ## Webhook pipeline (`VerifyWebhook`, `ParseWebhook`, `ParseAndVerifyWebhook`) -/

/-- Model: `VerifyWebhook`: empty-body and empty-header validation, key
resolution, base64 decode of X-Sign, SHA-256 digest of the raw body,
ASN.1 ECDSA verification. Returns the result plus the (possibly updated)
client state and the key-resolution effects. -/
def VerifyWebhook (lib : GoLib) (s : ClientState) (body xSign : String) :
    Except MbError Unit × ClientState × KeyEffects :=
  if body = "" then (.error (.validation "verify" "body is empty"), s, {})
  else
    let xs := goTrimSpace xSign
    if xs = "" then (.error (.validation "verify" "X-Sign header is empty"), s, {})
    else
      match ensureWebhookPublicKey lib s with
      | (.error e, s', eff) => (.error e, s', eff)
      | (.ok pub, s', eff) =>
        match lib.base64Decode xs with
        | none => (.error (.decode "verify" "base64 decode X-Sign" ""), s', eff)
        | some sig =>
          if lib.verifyASN1 pub (lib.sha256 body) sig then (.ok (), s', eff)
          else (.error (.webhookSignature "verify" "invalid signature"), s', eff)

/-- Model: `ParseWebhook`: empty-body validation then one `json.Unmarshal` of the
raw body. The second component counts the JSON decode attempts performed
on the body (the decode side-effect counter of the spec's P4). -/
def ParseWebhook (lib : GoLib) (body : String) :
    Except MbError InvoiceStatusResponse × Nat :=
  if body = "" then (.error (.validation "webhook" "body is empty"), 0)
  else
    match lib.jsonDecodeInvoiceStatus body with
    | none => (.error (.decode "webhook" "json unmarshal" (trimBody body 4096)), 1)
    | some event => (.ok event, 1)

/-- Model: `ParseAndVerifyWebhook`: verify first; only on success parse the body.
Returns the result, the client state, the key effects, and the number of
JSON decode attempts on the body. -/
def ParseAndVerifyWebhook (lib : GoLib) (s : ClientState) (body xSign : String) :
    Except MbError InvoiceStatusResponse × ClientState × KeyEffects × Nat :=
  match VerifyWebhook lib s body xSign with
  | (.error e, s', eff) => (.error e, s', eff, 0)
  | (.ok _, s', eff) =>
    match ParseWebhook lib body with
    | (r, n) => (r, s', eff, n)

/-! ## Response classification (`kindFromStatus`, `parseRetryAfter`,
`parseAPIErrorBody`, and the response-handling tail of `doJSON`) -/

/-- Model: `kindFromStatus`: the fixed status → sentinel table. -/
def kindFromStatus (status : Nat) : ErrKind :=
  if status = 400 then .badRequest
  else if status = 403 then .invalidToken
  else if status = 404 then .notFound
  else if status = 405 then .methodNotAllowed
  else if status = 429 then .rateLimited
  else if 500 ≤ status ∧ status ≤ 599 then .serverError
  else .unexpectedResponse

/-- Nanoseconds in a second (`time.Second`). -/
def nsPerSecond : Int := 1000000000

/-- Model: `parseRetryAfter`: delta-seconds (negative clamped to zero) or an HTTP
date (elapsed dates clamped to zero). `now` and the HTTP-date parser come
from outside; times are epoch nanoseconds, so `time.Until t = t - now`. -/
def parseRetryAfter (lib : GoLib) (now : Int) (v : String) : Option Int :=
  let v := goTrimSpace v
  if v = "" then none
  else
    match goAtoi v with
    | some secs =>
      let secs := if secs < 0 then 0 else secs
      some (secs * nsPerSecond)
    | none =>
      match lib.parseHTTPTime v with
      | some t =>
        let d := t - now
        some (if d < 0 then 0 else d)
      | none => none

/-- Model: `parseAPIErrorBody`: structured decode into `apiErrorBody`, else a
generic map decode with the same field search and a single-field
fallback, else the raw trimmed body. Returns (errCode, description). -/
def parseAPIErrorBody (lib : GoLib) (body : String) : String × String :=
  if body = "" then ("", "")
  else
    match lib.jsonParseErrorBody body with
    | some doc =>
      match decodeApiErrBody doc with
      | some parsed =>
        let errCode := anyToString parsed.errCode
        let desc := firstNonEmptyString
          [goTrimSpace parsed.errText, goTrimSpace parsed.errorDescription,
           goTrimSpace parsed.message, goTrimSpace parsed.errorStr,
           goTrimSpace parsed.description, goTrimSpace parsed.detail]
        let desc := if desc = "" then goTrimSpace body else desc
        (errCode, desc)
      | none =>
        match doc with
        | .obj fields =>
          let errCode :=
            match jlookup fields "errCode" with
            | some v => anyToString (some v)
            | none => ""
          let desc := firstNonEmptyString
            [anyToString (jlookup fields "errText"), anyToString (jlookup fields "errorDescription"),
             anyToString (jlookup fields "message"), anyToString (jlookup fields "error"),
             anyToString (jlookup fields "description"), anyToString (jlookup fields "detail")]
          let desc :=
            if desc = "" then
              match fields with
              | [p] => anyToString (some p.2)
              | _ => desc
            else desc
          let desc := if desc = "" then goTrimSpace body else desc
          (errCode, goTrimSpace desc)
        | .val _ => ("", goTrimSpace body)
    | none => ("", goTrimSpace body)

/-- The response-handling tail of `doJSON` after a completed HTTP
exchange: non-2xx statuses are classified into an `APIError` (with
retry-after guidance on 429); 2xx decodes the body into the target when
one is expected (`hasOut`). -/
def handleResponse (lib : GoLib) (now : Int) (method path : String) (statusCode : Nat)
    (contentType retryAfterHeader body : String) (hasOut : Bool) :
    Except MbError Unit :=
  if statusCode < 200 ∨ 300 ≤ statusCode then
    let parsed := parseAPIErrorBody lib body
    let retryAfter :=
      if statusCode = 429 then parseRetryAfter lib now retryAfterHeader else none
    .error (.api (kindFromStatus statusCode) method path statusCode contentType
      parsed.1 parsed.2 (trimBody body 4096) retryAfter)
  else if hasOut = false then .ok ()
  else if body = "" then
    .error (.unexpectedResponse "decode" method path statusCode "empty response body")
  else if lib.decodeOutOk body then .ok ()
  else .error (.decode "decode" "json unmarshal response" (trimBody body 4096))

/-! ## Requests, token resolution, outbound operations -/

structure Merchant where
  token : String
  cms : Option String
  cmsVersion : Option String
deriving DecidableEq, Repr

structure PaymentData where
  invoiceID : Option String
  amount : Int
  currency : Int
  paymentType : String
  redirectURL : Option String
  webHookURL : Option String
  validitySeconds : Option Int
  initiationKind : String
deriving DecidableEq, Repr

structure PaymentMethod where
  cardToken : Option String
  walletID : Option String
  saveCard : Bool
deriving DecidableEq, Repr

/-- The unified request object; an `Option Request` models the nilable
`*Request` pointer the getters guard against. -/
structure Request where
  merchant : Option Merchant
  paymentData : Option PaymentData
  paymentMethod : Option PaymentMethod
deriving DecidableEq, Repr

def Request.getToken : Option Request → String
  | none => ""
  | some r =>
    match r.merchant with
    | none => ""
    | some m => goTrimSpace m.token

def Request.getInvoiceID : Option Request → String
  | none => ""
  | some r =>
    match r.paymentData with
    | none => ""
    | some pd =>
      match pd.invoiceID with
      | none => ""
      | some v => goTrimSpace v

def Request.getAmount : Option Request → Int
  | none => 0
  | some r =>
    match r.paymentData with
    | none => 0
    | some pd => pd.amount

def Request.getCurrency : Option Request → Int
  | none => 0
  | some r =>
    match r.paymentData with
    | none => 0
    | some pd => pd.currency

def Request.getRedirectURL : Option Request → Option String
  | none => none
  | some r =>
    match r.paymentData with
    | none => none
    | some pd => pd.redirectURL

def Request.getInitiationKind : Option Request → String
  | none => ""
  | some r =>
    match r.paymentData with
    | none => ""
    | some pd => pd.initiationKind

def Request.getCardToken : Option Request → String
  | none => ""
  | some r =>
    match r.paymentMethod with
    | none => ""
    | some pm =>
      match pm.cardToken with
      | none => ""
      | some v => goTrimSpace v

def Request.getWalletID : Option Request → String
  | none => ""
  | some r =>
    match r.paymentMethod with
    | none => ""
    | some pm =>
      match pm.walletID with
      | none => ""
      | some v => goTrimSpace v

def Request.shouldSaveCard : Option Request → Bool
  | none => false
  | some r =>
    match r.paymentMethod with
    | none => false
    | some pm => pm.saveCard

/-- Model: `client.resolveToken`: trimmed per-request token when non-empty,
otherwise the trimmed client default token. -/
def resolveToken (cfg : ClientConfig) (request : Option Request) : String :=
  match request with
  | some r =>
    let t := goTrimSpace (Request.getToken (some r))
    if t ≠ "" then t else goTrimSpace cfg.defaultToken
  | none => goTrimSpace cfg.defaultToken

/-- The token-precedence check at the top of `doJSON` (explicit argument >
request token > client default; empty after all fallbacks is a
ValidationError). Returns the token actually placed in the X-Token
header. -/
def doJSONResolveToken (cfg : ClientConfig) (token : String) (request : Option Request) :
    Except MbError String :=
  let tok := goTrimSpace token
  let tok := if tok = "" then goTrimSpace (Request.getToken request) else tok
  let tok := if tok = "" then goTrimSpace cfg.defaultToken else tok
  if tok = "" then .error (.validation "auth" "token is empty")
  else .ok tok

/-- Paths from the consts package. -/
def PathInvoiceCreate : String := "/api/merchant/invoice/create"
def PathInvoiceStatus : String := "/api/merchant/invoice/status"
def PathWalletPayment : String := "/api/merchant/wallet/payment"

/-- The missing-token validation message shared by all four operations. -/
def xTokenRequiredMsg : String :=
  "X-Token is required (set request.WithToken(...) or client WithToken(...))"

/-- The dispatch of one `doJSON` transport round-trip: the decoded
result (or classified error) together with the single HTTP call it
issued. -/
def runCall {α : Type} (result : Except MbError α) (call : HttpCall) :
    Except MbError (Option α) × List HttpCall :=
  match result with
  | .error e => (.error e, [call])
  | .ok resp => (.ok (some resp), [call])

/-- The empty `&Request{}` `PublicKey` substitutes for a nil request. -/
def emptyRequest : Request := { merchant := none, paymentData := none, paymentMethod := none }

/-- Model: `client.Verification` after the nil-request guard: validation chain,
then POST invoice/create via `doJSON`. The second component lists the
HTTP requests issued; `dryRun` models
`collectRunOptions(runOpts).isDryRun()`; a `none` payload result models
the `(nil, nil)` dry-run return; the source's local `token`/`call`
let-bindings are inlined. -/
def VerificationChecked (lib : GoLib) (cfg : ClientConfig) (r : Request) (dryRun : Bool) :
    Except MbError (Option InvoiceCreateResponse) × List HttpCall :=
  if resolveToken cfg (some r) = "" then
    (.error (.validation "verification" xTokenRequiredMsg), [])
  else if Request.getAmount (some r) ≤ 0 then
    (.error (.validation "verification" "amount (minor units) must be > 0"), [])
  else if Request.shouldSaveCard (some r) = true ∧
      goTrimSpace (Request.getWalletID (some r)) = "" then
    (.error (.validation "verification" "walletId is required when SaveCard is enabled"), [])
  else if dryRun = true then (.ok none, [])
  else
    match doJSONResolveToken cfg (resolveToken cfg (some r)) (some r) with
    | .error e => (.error e, [])
    | .ok tok =>
      runCall (lib.doInvoiceCreate ⟨"POST", PathInvoiceCreate, tok⟩)
        ⟨"POST", PathInvoiceCreate, tok⟩

/-- Model: `client.Verification`: nil-request guard, then the checked body. -/
def Verification (lib : GoLib) (cfg : ClientConfig) (request : Option Request) (dryRun : Bool) :
    Except MbError (Option InvoiceCreateResponse) × List HttpCall :=
  match request with
  | none => (.error (.validation "verification" "request is nil"), [])
  | some r => VerificationChecked lib cfg r dryRun

/-- Model: `client.Payment` after the nil-request guard: validation chain, then
POST wallet/payment. -/
def PaymentChecked (lib : GoLib) (cfg : ClientConfig) (r : Request) (dryRun : Bool) :
    Except MbError (Option WalletPaymentResponse) × List HttpCall :=
  if resolveToken cfg (some r) = "" then
    (.error (.validation "payment" xTokenRequiredMsg), [])
  else if Request.getCardToken (some r) = "" then
    (.error (.validation "payment" "cardToken is required (set request.WithCardToken(...))"), [])
  else if Request.getAmount (some r) ≤ 0 then
    (.error (.validation "payment" "amount (minor units) must be > 0"), [])
  else if goTrimSpace (Request.getInitiationKind (some r)) = "" then
    (.error (.validation "payment" "initiationKind is required (merchant|client)"), [])
  else if Request.getInitiationKind (some r) = "client" ∧
      goTrimSpace ((Request.getRedirectURL (some r)).getD "") = "" then
    (.error (.validation "payment" "redirectUrl is required when initiationKind=client"), [])
  else if dryRun = true then (.ok none, [])
  else
    match doJSONResolveToken cfg (resolveToken cfg (some r)) (some r) with
    | .error e => (.error e, [])
    | .ok tok =>
      runCall (lib.doWalletPayment ⟨"POST", PathWalletPayment, tok⟩)
        ⟨"POST", PathWalletPayment, tok⟩

/-- Model: `client.Payment`: nil-request guard, then the checked body. -/
def Payment (lib : GoLib) (cfg : ClientConfig) (request : Option Request) (dryRun : Bool) :
    Except MbError (Option WalletPaymentResponse) × List HttpCall :=
  match request with
  | none => (.error (.validation "payment" "request is nil"), [])
  | some r => PaymentChecked lib cfg r dryRun

/-- Model: `client.Status` after the nil-request guard: validation chain, then
GET invoice/status. -/
def StatusChecked (lib : GoLib) (cfg : ClientConfig) (r : Request) (dryRun : Bool) :
    Except MbError (Option InvoiceStatusResponse) × List HttpCall :=
  if resolveToken cfg (some r) = "" then
    (.error (.validation "status" xTokenRequiredMsg), [])
  else if Request.getInvoiceID (some r) = "" then
    (.error (.validation "status" "invoiceId is required (set request.WithInvoiceID(...))"), [])
  else if dryRun = true then (.ok none, [])
  else
    match doJSONResolveToken cfg (resolveToken cfg (some r)) (some r) with
    | .error e => (.error e, [])
    | .ok tok =>
      runCall (lib.doInvoiceStatus ⟨"GET", PathInvoiceStatus ++ "?invoiceId=" ++
          lib.queryEscape (Request.getInvoiceID (some r)), tok⟩)
        ⟨"GET", PathInvoiceStatus ++ "?invoiceId=" ++
          lib.queryEscape (Request.getInvoiceID (some r)), tok⟩

/-- Model: `client.Status`: nil-request guard, then the checked body. -/
def Status (lib : GoLib) (cfg : ClientConfig) (request : Option Request) (dryRun : Bool) :
    Except MbError (Option InvoiceStatusResponse) × List HttpCall :=
  match request with
  | none => (.error (.validation "status" "request is nil"), [])
  | some r => StatusChecked lib cfg r dryRun

/-- Model: `client.PublicKey` body: token check, then GET pubkey. -/
def PublicKeyChecked (lib : GoLib) (cfg : ClientConfig) (r : Request) (dryRun : Bool) :
    Except MbError (Option PublicKeyResponse) × List HttpCall :=
  if resolveToken cfg (some r) = "" then
    (.error (.validation "pubkey" xTokenRequiredMsg), [])
  else if dryRun = true then (.ok none, [])
  else
    match doJSONResolveToken cfg (resolveToken cfg (some r)) (some r) with
    | .error e => (.error e, [])
    | .ok tok =>
      runCall (lib.doPubKey ⟨"GET", PathPubKey, tok⟩) ⟨"GET", PathPubKey, tok⟩

/-- Model: `client.PublicKey`: a nil request is replaced by the empty request,
then the checked body runs. -/
def PublicKey (lib : GoLib) (cfg : ClientConfig) (request : Option Request) (dryRun : Bool) :
    Except MbError (Option PublicKeyResponse) × List HttpCall :=
  match request with
  | none => PublicKeyChecked lib cfg emptyRequest dryRun
  | some r => PublicKeyChecked lib cfg r dryRun

/-! ## Concrete fixtures for evaluating the model -/

/-- A concrete key value. -/
def k0 : ECPubKey := { x := 1, y := 2 }

/-- A benign concrete oracle instance. -/
def trivLib : GoLib where
  pemDecode := fun _ => some []
  parsePKIX := fun _ => some (.ecdsa k0)
  base64Decode := fun _ => some []
  sha256 := fun _ => []
  verifyASN1 := fun _ _ _ => true
  jsonDecodeInvoiceStatus := fun _ => some { invoiceId := "", status := "" }
  jsonParseErrorBody := fun _ => none
  parseHTTPTime := fun _ => none
  queryEscape := fun s => s
  decodeOutOk := fun _ => true
  doInvoiceCreate := fun _ => .ok { invoiceId := "", pageURL := "" }
  doWalletPayment := fun _ => .ok { invoiceId := "", status := "" }
  doInvoiceStatus := fun _ => .ok { invoiceId := "", status := "" }
  doPubKey := fun _ => .ok { key := "" }

/-- An all-empty client configuration. -/
def cfgEmpty : ClientConfig :=
  { baseURL := "", defaultToken := "", webhookPublicKeyBase64 := "", webhookPublicKeyPEM := [] }

/-- A client with the key already cached. -/
def sCached : ClientState := { cfg := cfgEmpty, pubKey := some k0 }

/-- A client with no key source at all. -/
def sNoSource : ClientState := { cfg := cfgEmpty, pubKey := none }

/-- A client configured with raw PEM bytes (and no cached key). -/
def sRawPEM : ClientState :=
  { cfg := { cfgEmpty with webhookPublicKeyPEM := [0] }, pubKey := none }

/-- Oracle whose PEM decoding fails (malformed key container). -/
def libPemFail : GoLib := { trivLib with pemDecode := fun _ => none }

/-- A client configured with base64 key text (and no raw PEM, no cached
key). -/
def sBase64 : ClientState :=
  { cfg := { cfgEmpty with webhookPublicKeyBase64 := "QQ==" }, pubKey := none }

/-- Oracle whose signature verification rejects everything. -/
def libVerifyFail : GoLib := { trivLib with verifyASN1 := fun _ _ _ => false }

/-- Oracle whose webhook JSON decoding fails (invalid JSON body). -/
def libJsonFail : GoLib := { trivLib with jsonDecodeInvoiceStatus := fun _ => none }

/-- The error body of the spec's P6 example. -/
def B82 : String := "\x7b\"errCode\": 82, \"message\": \"declined\"\x7d"

/-- The parsed form of `B82`. -/
def docB82 : JDoc := .obj [("errCode", .num 82), ("message", .str "declined")]

/-- Oracle that parses `B82` to `docB82`. -/
def libB82 : GoLib :=
  { trivLib with jsonParseErrorBody := fun s => if s = B82 then some docB82 else none }

/-! ## Shared lemmas -/

/-- A prefix of a list with no leading `p`-run has no leading `p`-run. -/
theorem dropWhile_eq_self_of_prefix {p : Char → Bool} {l₁ l₂ : List Char}
    (hpre : l₁ <+: l₂) (h : l₂.dropWhile p = l₂) : l₁.dropWhile p = l₁ := by
  cases l₁ with
  | nil => rfl
  | cons a t =>
    obtain ⟨rest, hrest⟩ := hpre
    rw [← hrest] at h
    rw [List.cons_append, List.dropWhile_cons] at h
    rw [List.dropWhile_cons]
    by_cases hp : p a
    · rw [if_pos hp] at h
      have h1 : ((t ++ rest).dropWhile p).length ≤ (t ++ rest).length :=
        (List.dropWhile_suffix p).length_le
      rw [h] at h1
      simp at h1
    · rw [if_neg hp]

/-- Lemma: `goTrimSpace`, written with Mathlib's right-trim. -/
theorem goTrimSpace_eq (s : String) :
    goTrimSpace s = String.mk (List.rdropWhile goIsSpace (List.dropWhile goIsSpace s.data)) := rfl

/-- Go's TrimSpace is idempotent. -/
theorem goTrimSpace_idem (s : String) : goTrimSpace (goTrimSpace s) = goTrimSpace s := by
  rw [goTrimSpace_eq, goTrimSpace_eq]
  congr 1
  have hdata : (String.mk (List.rdropWhile goIsSpace (List.dropWhile goIsSpace s.data))).data =
      List.rdropWhile goIsSpace (List.dropWhile goIsSpace s.data) := rfl
  rw [hdata]
  have h1 : List.dropWhile goIsSpace
      (List.rdropWhile goIsSpace (List.dropWhile goIsSpace s.data)) =
      List.rdropWhile goIsSpace (List.dropWhile goIsSpace s.data) :=
    dropWhile_eq_self_of_prefix (List.rdropWhile_prefix _ _)
      (List.dropWhile_idempotent _ _)
  rw [h1]
  exact List.rdropWhile_idempotent _ _

/-! ## C1 -/

/-- C1: `ParseAndVerifyWebhook` verifies before parsing. With a resolvable
key and a base64-decodable signature header: when ECDSA verification
rejects, the result is the invalid-signature error and the body is never
JSON-decoded (decode counter 0); when verification accepts but the body
is not valid JSON, the result is the webhook DecodeError (after exactly
one decode attempt). -/
theorem C1_verify_before_parse (lib : GoLib) (s : ClientState) (body xSign : String)
    (pub : ECPubKey) (s' : ClientState) (eff : KeyEffects) (sig : List Nat)
    (hbody : body ≠ "") (hsign : goTrimSpace xSign ≠ "")
    (hkey : ensureWebhookPublicKey lib s = (.ok pub, s', eff))
    (hsig : lib.base64Decode (goTrimSpace xSign) = some sig) :
    (lib.verifyASN1 pub (lib.sha256 body) sig = false →
      ParseAndVerifyWebhook lib s body xSign =
        (.error (.webhookSignature "verify" "invalid signature"), s', eff, 0)) ∧
    (lib.verifyASN1 pub (lib.sha256 body) sig = true →
      lib.jsonDecodeInvoiceStatus body = none →
      ParseAndVerifyWebhook lib s body xSign =
        (.error (.decode "webhook" "json unmarshal" (trimBody body 4096)), s', eff, 1)) := by
  constructor
  · intro hv
    simp [ParseAndVerifyWebhook, VerifyWebhook, hbody, hsign, hkey, hsig, hv]
  · intro hv hj
    simp [ParseAndVerifyWebhook, VerifyWebhook, ParseWebhook, hbody, hsign, hkey, hsig, hv, hj]

/-- C1 witness: the theorem evaluated at concrete inputs, both branches. -/
theorem C1_verify_before_parse_witness :
    ParseAndVerifyWebhook libVerifyFail sCached "x" "s" =
      (.error (.webhookSignature "verify" "invalid signature"), sCached, {}, 0) ∧
    ParseAndVerifyWebhook libJsonFail sCached "x" "s" =
      (.error (.decode "webhook" "json unmarshal" (trimBody "x" 4096)), sCached, {}, 1) :=
  ⟨(C1_verify_before_parse libVerifyFail sCached "x" "s" k0 sCached {} []
      (by decide) (by decide) rfl rfl).1 rfl,
   (C1_verify_before_parse libJsonFail sCached "x" "s" k0 sCached {} []
      (by decide) (by decide) rfl rfl).2 rfl rfl⟩

/-! ## C2 -/

/-- C2: `VerifyWebhook` classifies by a closed case analysis: empty body
→ ValidationError; blank X-Sign header → ValidationError; header not
valid base64 → DecodeError; ECDSA rejection → invalid-signature error,
which `errors.Is`-matches only the invalid-signature sentinel and not the
decode or validation sentinels; verification success → no error. -/
theorem C2_verify_webhook_cases (lib : GoLib) (s : ClientState) (body xSign : String)
    (pub : ECPubKey) (s' : ClientState) (eff : KeyEffects) :
    (body = "" →
      (VerifyWebhook lib s body xSign).1 = .error (.validation "verify" "body is empty")) ∧
    (body ≠ "" → goTrimSpace xSign = "" →
      (VerifyWebhook lib s body xSign).1 =
        .error (.validation "verify" "X-Sign header is empty")) ∧
    (body ≠ "" → goTrimSpace xSign ≠ "" →
      ensureWebhookPublicKey lib s = (.ok pub, s', eff) →
      lib.base64Decode (goTrimSpace xSign) = none →
      (VerifyWebhook lib s body xSign).1 =
        .error (.decode "verify" "base64 decode X-Sign" "")) ∧
    (∀ sig, body ≠ "" → goTrimSpace xSign ≠ "" →
      ensureWebhookPublicKey lib s = (.ok pub, s', eff) →
      lib.base64Decode (goTrimSpace xSign) = some sig →
      lib.verifyASN1 pub (lib.sha256 body) sig = false →
      (VerifyWebhook lib s body xSign).1 =
        .error (.webhookSignature "verify" "invalid signature")) ∧
    (∀ sig, body ≠ "" → goTrimSpace xSign ≠ "" →
      ensureWebhookPublicKey lib s = (.ok pub, s', eff) →
      lib.base64Decode (goTrimSpace xSign) = some sig →
      lib.verifyASN1 pub (lib.sha256 body) sig = true →
      (VerifyWebhook lib s body xSign).1 = .ok ()) ∧
    (∀ op msg, errorsIs (.webhookSignature op msg) .invalidSignature = true ∧
      errorsIs (.webhookSignature op msg) .decode = false ∧
      errorsIs (.webhookSignature op msg) .validation = false) := by
  refine ⟨?_, ?_, ?_, ?_, ?_, ?_⟩
  · intro h
    simp [VerifyWebhook, h]
  · intro h1 h2
    simp [VerifyWebhook, h1, h2]
  · intro h1 h2 hkey hb
    simp [VerifyWebhook, h1, h2, hkey, hb]
  · intro sig h1 h2 hkey hb hv
    simp [VerifyWebhook, h1, h2, hkey, hb, hv]
  · intro sig h1 h2 hkey hb hv
    simp [VerifyWebhook, h1, h2, hkey, hb, hv]
  · intro op msg
    exact ⟨rfl, rfl, rfl⟩

/-- C2 witness: all five branches evaluated at concrete inputs. -/
theorem C2_verify_webhook_cases_witness :
    (VerifyWebhook trivLib sCached "" "s").1 =
      .error (.validation "verify" "body is empty") ∧
    (VerifyWebhook trivLib sCached "x" " ").1 =
      .error (.validation "verify" "X-Sign header is empty") ∧
    (VerifyWebhook { trivLib with base64Decode := fun _ => none } sCached "x" "s").1 =
      .error (.decode "verify" "base64 decode X-Sign" "") ∧
    (VerifyWebhook libVerifyFail sCached "x" "s").1 =
      .error (.webhookSignature "verify" "invalid signature") ∧
    (VerifyWebhook trivLib sCached "x" "s").1 = .ok () ∧
    errorsIs (.webhookSignature "verify" "invalid signature") .decode = false :=
  ⟨(C2_verify_webhook_cases trivLib sCached "" "s" k0 sCached {}).1 rfl,
   (C2_verify_webhook_cases trivLib sCached "x" " " k0 sCached {}).2.1 (by decide) (by decide),
   (C2_verify_webhook_cases { trivLib with base64Decode := fun _ => none } sCached "x" "s"
      k0 sCached {}).2.2.1 (by decide) (by decide) rfl rfl,
   (C2_verify_webhook_cases libVerifyFail sCached "x" "s" k0 sCached {}).2.2.2.1 []
      (by decide) (by decide) rfl rfl rfl,
   (C2_verify_webhook_cases trivLib sCached "x" "s" k0 sCached {}).2.2.2.2.1 []
      (by decide) (by decide) rfl rfl rfl,
   ((C2_verify_webhook_cases trivLib sCached "x" "s" k0 sCached {}).2.2.2.2.2
      "verify" "invalid signature").2.1⟩

/-! ## Key-resolution lemmas shared by C3 and C4 -/

/-- A cached key is returned immediately, with no effects and no state
change. -/
theorem ensure_cached (lib : GoLib) (s : ClientState) (pub : ECPubKey)
    (h : s.pubKey = some pub) : ensureWebhookPublicKey lib s = (.ok pub, s, {}) := by
  simp [ensureWebhookPublicKey, h]

/-- With raw PEM configured, resolution only parses the raw bytes. -/
theorem ensure_raw_effects (lib : GoLib) (s : ClientState)
    (h1 : s.pubKey = none) (h2 : s.cfg.webhookPublicKeyPEM ≠ []) :
    (ensureWebhookPublicKey lib s).2.2 = { parsedRawPEM := true } := by
  have hlen : 0 < s.cfg.webhookPublicKeyPEM.length := List.length_pos.mpr h2
  cases hp : parseECDSAPublicKeyFromPEM lib s.cfg.webhookPublicKeyPEM with
  | error e => simp [ensureWebhookPublicKey, h1, hlen, hp]
  | ok pub => simp [ensureWebhookPublicKey, h1, hlen, hp]

/-- With no raw PEM but base64 key text configured, resolution only
decodes the configured base64 text. -/
theorem ensure_base64_effects (lib : GoLib) (s : ClientState)
    (h1 : s.pubKey = none) (h2 : s.cfg.webhookPublicKeyPEM = [])
    (h3 : goTrimSpace s.cfg.webhookPublicKeyBase64 ≠ "") :
    (ensureWebhookPublicKey lib s).2.2 = { decodedConfigBase64 := true } := by
  cases hb : lib.base64Decode (goTrimSpace s.cfg.webhookPublicKeyBase64) with
  | none => simp [ensureWebhookPublicKey, h1, h2, h3, hb]
  | some pemBytes =>
    cases hp : parseECDSAPublicKeyFromPEM lib pemBytes with
    | error e => simp [ensureWebhookPublicKey, h1, h2, h3, hb, hp]
    | ok pub => simp [ensureWebhookPublicKey, h1, h2, h3, hb, hp]

/-- After a successful resolution, the returned key is cached in the
returned state. -/
theorem ensure_ok_pubKey (lib : GoLib) (s : ClientState) (pub : ECPubKey)
    (s' : ClientState) (eff : KeyEffects)
    (h : ensureWebhookPublicKey lib s = (.ok pub, s', eff)) : s'.pubKey = some pub := by
  unfold ensureWebhookPublicKey at h
  repeat' split at h
  all_goals simp_all
  all_goals (rcases h with ⟨h1, h2, h3⟩; rw [← h2]; simp [h1])

/-- With no cached key, no key source, and a blank default token,
resolution fails with the pubkey ValidationError and changes nothing. -/
theorem ensure_no_source (lib : GoLib) (s : ClientState)
    (h1 : s.pubKey = none) (h2 : s.cfg.webhookPublicKeyPEM = [])
    (h3 : goTrimSpace s.cfg.webhookPublicKeyBase64 = "")
    (h4 : goTrimSpace s.cfg.defaultToken = "") :
    ensureWebhookPublicKey lib s =
      (.error (.validation "pubkey" pubkeyNotConfiguredMsg), s, {}) := by
  simp [ensureWebhookPublicKey, h1, h2, h3, h4]

/-! ## C3 -/

/-- C3: key sources are consulted in fixed priority raw > base64 >
remote. With raw PEM configured (and no cached key), resolution parses
the raw bytes and neither decodes the configured base64 text nor fetches
remotely; and a remote fetch happens only when there is no cached key,
no raw PEM, and no non-blank base64 text. -/
theorem C3_key_source_priority (lib : GoLib) (s : ClientState) :
    (s.pubKey = none → s.cfg.webhookPublicKeyPEM ≠ [] →
      (ensureWebhookPublicKey lib s).2.2 =
        { parsedRawPEM := true, decodedConfigBase64 := false, fetchedRemote := false }) ∧
    ((ensureWebhookPublicKey lib s).2.2.fetchedRemote = true →
      s.pubKey = none ∧ s.cfg.webhookPublicKeyPEM = [] ∧
      goTrimSpace s.cfg.webhookPublicKeyBase64 = "") := by
  constructor
  · intro h1 h2
    exact ensure_raw_effects lib s h1 h2
  · intro hf
    by_cases h1 : s.pubKey = none
    · by_cases h2 : s.cfg.webhookPublicKeyPEM = []
      · by_cases h3 : goTrimSpace s.cfg.webhookPublicKeyBase64 = ""
        · exact ⟨h1, h2, h3⟩
        · rw [ensure_base64_effects lib s h1 h2 h3] at hf
          simp at hf
      · rw [ensure_raw_effects lib s h1 h2] at hf
        simp at hf
    · obtain ⟨pub, hp⟩ := Option.ne_none_iff_exists'.mp h1
      rw [ensure_cached lib s pub hp] at hf
      simp at hf

/-- C3 witness: the raw-PEM client consults only the raw source. -/
theorem C3_key_source_priority_witness :
    (ensureWebhookPublicKey trivLib sRawPEM).2.2 =
      { parsedRawPEM := true, decodedConfigBase64 := false, fetchedRemote := false } :=
  (C3_key_source_priority trivLib sRawPEM).1 rfl (by decide)

/-! ## C4 -/

/-- C4: the key cache is idempotent and never caches halfway. After a
successful resolution every later call (with any oracle, hence without
any I/O) returns the cached key immediately with no effects and no state
change; a failed resolution leaves the client state untouched (nothing
is cached on failure); and a successful remote fetch additionally remembers
the fetched base64 key text in the configuration. -/
theorem C4_cache_idempotent (lib lib2 : GoLib) (s : ClientState) :
    (∀ pub s' eff, ensureWebhookPublicKey lib s = (.ok pub, s', eff) →
      ensureWebhookPublicKey lib2 s' = (.ok pub, s', {})) ∧
    (∀ e s' eff, ensureWebhookPublicKey lib s = (.error e, s', eff) → s' = s) ∧
    (∀ pub s' eff, ensureWebhookPublicKey lib s = (.ok pub, s', eff) →
      eff.fetchedRemote = true →
      ∃ resp, lib.doPubKey ⟨"GET", PathPubKey, goTrimSpace s.cfg.defaultToken⟩ = .ok resp ∧
        goTrimSpace resp.key ≠ "" ∧
        s'.cfg.webhookPublicKeyBase64 = goTrimSpace resp.key) := by
  refine ⟨?_, ?_, ?_⟩
  · intro pub s' eff h
    exact ensure_cached lib2 s' pub (ensure_ok_pubKey lib s pub s' eff h)
  · intro e s' eff h
    unfold ensureWebhookPublicKey at h
    repeat' split at h
    all_goals simp_all
  · intro pub s' eff h hf
    by_cases h1 : s.pubKey = none
    case neg =>
      obtain ⟨pubc, hpc⟩ := Option.ne_none_iff_exists'.mp h1
      rw [ensure_cached lib s pubc hpc] at h
      simp only [Prod.mk.injEq, Except.ok.injEq] at h
      rcases h with ⟨-, -, h3⟩
      rw [← h3] at hf
      simp at hf
    by_cases h2 : s.cfg.webhookPublicKeyPEM = []
    case neg =>
      have heff := ensure_raw_effects lib s h1 h2
      rw [h] at heff
      simp only at heff
      rw [heff] at hf
      simp at hf
    by_cases h3 : goTrimSpace s.cfg.webhookPublicKeyBase64 = ""
    case neg =>
      have heff := ensure_base64_effects lib s h1 h2 h3
      rw [h] at heff
      simp only at heff
      rw [heff] at hf
      simp at hf
    by_cases h4 : goTrimSpace s.cfg.defaultToken = ""
    case pos =>
      rw [ensure_no_source lib s h1 h2 h3 h4] at h
      simp at h
    cases hdo : lib.doPubKey ⟨"GET", PathPubKey, goTrimSpace s.cfg.defaultToken⟩ with
    | error e =>
      have hEq : ensureWebhookPublicKey lib s = (.error e, s, { fetchedRemote := true }) := by
        simp [ensureWebhookPublicKey, h1, h2, h3, h4, hdo]
      rw [hEq] at h
      simp at h
    | ok resp =>
      by_cases h5 : goTrimSpace resp.key = ""
      · have hEq : ensureWebhookPublicKey lib s =
            (.error (.wrapped "pubkey: empty key in response" none), s, { fetchedRemote := true }) := by
          simp [ensureWebhookPublicKey, h1, h2, h3, h4, hdo, h5]
        rw [hEq] at h
        simp at h
      · cases hb : lib.base64Decode (goTrimSpace resp.key) with
        | none =>
          have hEq : ensureWebhookPublicKey lib s =
              (.error (.wrapped "pubkey: base64 decode fetched key" none), s,
                { fetchedRemote := true }) := by
            simp [ensureWebhookPublicKey, h1, h2, h3, h4, hdo, h5, hb]
          rw [hEq] at h
          simp at h
        | some pemBytes =>
          cases hp : parseECDSAPublicKeyFromPEM lib pemBytes with
          | error e =>
            have hEq : ensureWebhookPublicKey lib s =
                (.error (.wrapped "pubkey: parse fetched PEM" (some e)), s,
                  { fetchedRemote := true }) := by
              simp [ensureWebhookPublicKey, h1, h2, h3, h4, hdo, h5, hb, hp]
            rw [hEq] at h
            simp at h
          | ok pubf =>
            have hEq : ensureWebhookPublicKey lib s =
                (.ok pubf,
                  { cfg := { s.cfg with webhookPublicKeyBase64 := goTrimSpace resp.key },
                    pubKey := some pubf },
                  { fetchedRemote := true }) := by
              simp [ensureWebhookPublicKey, h1, h2, h3, h4, hdo, h5, hb, hp]
            rw [hEq] at h
            simp only [Prod.mk.injEq, Except.ok.injEq] at h
            rcases h with ⟨-, hs', -⟩
            exact ⟨resp, rfl, h5, by rw [← hs']⟩

/-- C4 witness: first call resolves from raw PEM and caches; a second
call with a failing oracle still returns the cached key with no
effects. -/
theorem C4_cache_idempotent_witness :
    ensureWebhookPublicKey libPemFail
        { cfg := sRawPEM.cfg, pubKey := some k0 } =
      (.ok k0, { cfg := sRawPEM.cfg, pubKey := some k0 }, {}) :=
  (C4_cache_idempotent trivLib libPemFail sRawPEM).1 k0
    { cfg := sRawPEM.cfg, pubKey := some k0 } { parsedRawPEM := true } rfl

/-! ## C5 -/

/-- C5: every completed exchange with a non-2xx status is classified into
an APIError whose kind follows the fixed table (400 BadRequest, 403
InvalidCredential, 404 NotFound, 405 MethodNotAllowed, 429 RateLimited,
500–599 ServerError, otherwise UnexpectedResponse) and which carries the
method, path, and status code. -/
theorem C5_status_classification (lib : GoLib) (now : Int) (method path : String)
    (status : Nat) (ct ra body : String) (hasOut : Bool)
    (h : status < 200 ∨ 300 ≤ status) :
    handleResponse lib now method path status ct ra body hasOut =
      .error (.api (kindFromStatus status) method path status ct
        (parseAPIErrorBody lib body).1 (parseAPIErrorBody lib body).2 (trimBody body 4096)
        (if status = 429 then parseRetryAfter lib now ra else none)) ∧
    (status = 400 → kindFromStatus status = .badRequest) ∧
    (status = 403 → kindFromStatus status = .invalidToken) ∧
    (status = 404 → kindFromStatus status = .notFound) ∧
    (status = 405 → kindFromStatus status = .methodNotAllowed) ∧
    (status = 429 → kindFromStatus status = .rateLimited) ∧
    (500 ≤ status → status ≤ 599 → kindFromStatus status = .serverError) ∧
    (status ≠ 400 → status ≠ 403 → status ≠ 404 → status ≠ 405 → status ≠ 429 →
      ¬(500 ≤ status ∧ status ≤ 599) → kindFromStatus status = .unexpectedResponse) := by
  refine ⟨?_, ?_, ?_, ?_, ?_, ?_, ?_, ?_⟩
  · simp only [handleResponse]
    rw [if_pos h]
  · intro hs; subst hs; rfl
  · intro hs; subst hs; rfl
  · intro hs; subst hs; rfl
  · intro hs; subst hs; rfl
  · intro hs; subst hs; rfl
  · intro h5 h6
    unfold kindFromStatus
    split_ifs <;> first | rfl | (exfalso; omega)
  · intro n1 n2 n3 n4 n5 n6
    unfold kindFromStatus
    split_ifs <;> first | rfl | (exfalso; omega)

/-- C5 witness: status 404 produces a NotFound APIError carrying
method, path, and status; 503 maps to ServerError; 600 falls through to
UnexpectedResponse. -/
theorem C5_status_classification_witness :
    handleResponse trivLib 0 "GET" "/p" 404 "" "" "" true =
      .error (.api .notFound "GET" "/p" 404 "" "" "" "" none) ∧
    kindFromStatus 503 = .serverError ∧
    kindFromStatus 600 = .unexpectedResponse :=
  ⟨(C5_status_classification trivLib 0 "GET" "/p" 404 "" "" "" true (by omega)).1,
   (C5_status_classification trivLib 0 "GET" "/p" 503 "" "" "" true (by omega)).2.2.2.2.2.2.1
     (by omega) (by omega),
   (C5_status_classification trivLib 0 "GET" "/p" 600 "" "" "" true
     (by omega)).2.2.2.2.2.2.2 (by omega) (by omega) (by omega) (by omega) (by omega)
     (by omega)⟩

/-! ## C6 (corrected: the code returns ValidationError, and has no
ConfigurationError kind at all) -/

/-- C6 counterexample: with no key source configured and an empty default
token, `ensureWebhookPublicKey` returns a ValidationError whose
`errors.Is` kind is the validation sentinel — i.e. the failure is NOT
distinguished from the ValidationError kind by a separate
ConfigurationError (no such kind exists in the code's taxonomy). -/
theorem C6_counterexample :
    (ensureWebhookPublicKey trivLib sNoSource).1 =
      .error (.validation "pubkey" pubkeyNotConfiguredMsg) ∧
    errorsIs (.validation "pubkey" pubkeyNotConfiguredMsg) .validation = true := ⟨rfl, rfl⟩

/-- C6 (amended): when no key source is configured (no raw PEM bytes, no
non-blank base64 text) and the default token is blank, key resolution
fails with the pubkey ValidationError — the same validation kind as other
missing-input failures; the code defines no separate ConfigurationError
kind. -/
theorem C6_no_source_validation (lib : GoLib) (s : ClientState)
    (h1 : s.pubKey = none) (h2 : s.cfg.webhookPublicKeyPEM = [])
    (h3 : goTrimSpace s.cfg.webhookPublicKeyBase64 = "")
    (h4 : goTrimSpace s.cfg.defaultToken = "") :
    ensureWebhookPublicKey lib s =
      (.error (.validation "pubkey" pubkeyNotConfiguredMsg), s, {}) ∧
    errorsIs (.validation "pubkey" pubkeyNotConfiguredMsg) .validation = true :=
  ⟨ensure_no_source lib s h1 h2 h3 h4, rfl⟩

/-- C6 witness: the amended theorem evaluated on the empty client. -/
theorem C6_no_source_validation_witness :
    ensureWebhookPublicKey trivLib sNoSource =
      (.error (.validation "pubkey" pubkeyNotConfiguredMsg), sNoSource, {}) :=
  (C6_no_source_validation trivLib sNoSource rfl rfl rfl rfl).1

/-! ## C7 (corrected: malformed key material yields plain wrapped errors,
not DecodeError) -/

/-- A wrapper around a sentinel-free cause matches no sentinel. -/
theorem errorsIs_wrapped_none (msg : String) (k : ErrKind) :
    errorsIs (.wrapped msg none) k = false := by
  cases k <;> rfl

/-- Lemma: `errors.Is` unwraps one `%w` level. -/
theorem errorsIs_wrapped_some (msg : String) (e : MbError) (k : ErrKind) :
    errorsIs (.wrapped msg (some e)) k = errorsIs e k := by
  cases k <;> rfl

/-- Every failure of `parseECDSAPublicKeyFromPEM` is a plain error that
matches no sentinel under `errors.Is`. -/
theorem parseECDSA_error_unclassified (lib : GoLib) (pemBytes : List Nat) (e : MbError)
    (h : parseECDSAPublicKeyFromPEM lib pemBytes = .error e) :
    ∀ k, errorsIs e k = false := by
  unfold parseECDSAPublicKeyFromPEM at h
  repeat' split at h
  · simp only [Except.error.injEq] at h
    subst h
    exact fun k => errorsIs_wrapped_none _ k
  · simp only [Except.error.injEq] at h
    subst h
    exact fun k => errorsIs_wrapped_none _ k
  · simp at h
  · simp only [Except.error.injEq] at h
    subst h
    exact fun k => errorsIs_wrapped_none _ k

/-- C7 counterexample: a client configured with raw PEM bytes that fail
container parsing makes resolution fail with a plain wrapped error; its
`errors.Is` kind check against the decode sentinel is false, refuting
"fails with an error of kind DecodeError". -/
theorem C7_counterexample :
    (ensureWebhookPublicKey libPemFail sRawPEM).1 =
      .error (.wrapped "pubkey: parse PEM" (some (.wrapped "no PEM block found" none))) ∧
    errorsIs (.wrapped "pubkey: parse PEM" (some (.wrapped "no PEM block found" none)))
      .decode = false := ⟨rfl, rfl⟩

/-- C7 (amended): malformed configured key material — raw PEM failing
container parsing, base64 key text failing base64 decoding, or base64
key text whose decoded bytes fail container parsing — makes key
resolution fail with a plain `fmt.Errorf`-wrapped error that matches no
sentinel under `errors.Is` — in particular it is not classified as
DecodeError. -/
theorem C7_malformed_key_unclassified (lib : GoLib) (s : ClientState) (e : MbError) :
    (s.pubKey = none → s.cfg.webhookPublicKeyPEM ≠ [] →
      parseECDSAPublicKeyFromPEM lib s.cfg.webhookPublicKeyPEM = .error e →
      (ensureWebhookPublicKey lib s).1 = .error (.wrapped "pubkey: parse PEM" (some e)) ∧
      ∀ k, errorsIs (.wrapped "pubkey: parse PEM" (some e)) k = false) ∧
    (s.pubKey = none → s.cfg.webhookPublicKeyPEM = [] →
      goTrimSpace s.cfg.webhookPublicKeyBase64 ≠ "" →
      lib.base64Decode (goTrimSpace s.cfg.webhookPublicKeyBase64) = none →
      (ensureWebhookPublicKey lib s).1 = .error (.wrapped "pubkey: base64 decode" none) ∧
      ∀ k, errorsIs (.wrapped "pubkey: base64 decode" none) k = false) ∧
    (∀ pemBytes, s.pubKey = none → s.cfg.webhookPublicKeyPEM = [] →
      goTrimSpace s.cfg.webhookPublicKeyBase64 ≠ "" →
      lib.base64Decode (goTrimSpace s.cfg.webhookPublicKeyBase64) = some pemBytes →
      parseECDSAPublicKeyFromPEM lib pemBytes = .error e →
      (ensureWebhookPublicKey lib s).1 =
        .error (.wrapped "pubkey: parse decoded PEM" (some e)) ∧
      ∀ k, errorsIs (.wrapped "pubkey: parse decoded PEM" (some e)) k = false) := by
  refine ⟨?_, ?_, ?_⟩
  · intro h1 h2 hp
    have hlen : 0 < s.cfg.webhookPublicKeyPEM.length := List.length_pos.mpr h2
    refine ⟨by simp [ensureWebhookPublicKey, h1, hlen, hp], fun k => ?_⟩
    rw [errorsIs_wrapped_some]
    exact parseECDSA_error_unclassified lib _ e hp k
  · intro h1 h2 h3 hb
    exact ⟨by simp [ensureWebhookPublicKey, h1, h2, h3, hb],
      fun k => errorsIs_wrapped_none _ k⟩
  · intro pemBytes h1 h2 h3 hb hp
    refine ⟨by simp [ensureWebhookPublicKey, h1, h2, h3, hb, hp], fun k => ?_⟩
    rw [errorsIs_wrapped_some]
    exact parseECDSA_error_unclassified lib _ e hp k

/-- C7 witness: the amended theorem evaluated on the raw-PEM client and
on the base64 client, both with a failing PEM container decoder. -/
theorem C7_malformed_key_unclassified_witness :
    (ensureWebhookPublicKey libPemFail sRawPEM).1 =
      .error (.wrapped "pubkey: parse PEM" (some (.wrapped "no PEM block found" none))) ∧
    errorsIs (.wrapped "pubkey: parse PEM" (some (.wrapped "no PEM block found" none)))
      .validation = false ∧
    (ensureWebhookPublicKey libPemFail sBase64).1 =
      .error (.wrapped "pubkey: parse decoded PEM" (some (.wrapped "no PEM block found" none))) ∧
    errorsIs (.wrapped "pubkey: parse decoded PEM" (some (.wrapped "no PEM block found" none)))
      .decode = false :=
  ⟨((C7_malformed_key_unclassified libPemFail sRawPEM
      (.wrapped "no PEM block found" none)).1 rfl (by decide) rfl).1,
   ((C7_malformed_key_unclassified libPemFail sRawPEM
      (.wrapped "no PEM block found" none)).1 rfl (by decide) rfl).2 .validation,
   ((C7_malformed_key_unclassified libPemFail sBase64
      (.wrapped "no PEM block found" none)).2.2 [] rfl rfl (by decide) rfl rfl).1,
   ((C7_malformed_key_unclassified libPemFail sBase64
      (.wrapped "no PEM block found" none)).2.2 [] rfl rfl (by decide) rfl rfl).2 .decode⟩

/-! ## C8 -/

/-- C8: retry-after guidance is attached exactly on status 429 with a
parseable Retry-After header: integer seconds ("5" gives 5s), or an HTTP
date with elapsed dates clamped to zero; any other status or an
unparseable header leaves it absent. -/
theorem C8_retry_after (lib : GoLib) (now : Int) (method path : String) (status : Nat)
    (ct ra body : String) (hasOut : Bool) (v : String) (t : Int) :
    (status < 200 ∨ 300 ≤ status → status ≠ 429 →
      errRetryAfter (handleResponse lib now method path status ct ra body hasOut) = none) ∧
    (200 ≤ status → status < 300 →
      errRetryAfter (handleResponse lib now method path status ct ra body hasOut) = none) ∧
    (status = 429 →
      errRetryAfter (handleResponse lib now method path status ct ra body hasOut) =
        parseRetryAfter lib now ra) ∧
    parseRetryAfter lib now "5" = some (5 * nsPerSecond) ∧
    (goTrimSpace v ≠ "" → goAtoi (goTrimSpace v) = none →
      lib.parseHTTPTime (goTrimSpace v) = some t → t - now < 0 →
      parseRetryAfter lib now v = some 0) ∧
    (goAtoi (goTrimSpace v) = none → lib.parseHTTPTime (goTrimSpace v) = none →
      parseRetryAfter lib now v = none) := by
  refine ⟨?_, ?_, ?_, ?_, ?_, ?_⟩
  · intro h h429
    simp only [handleResponse]
    rw [if_pos h]
    simp [errRetryAfter, MbError.retryAfterOf, h429]
  · intro h1 h2
    simp only [handleResponse]
    rw [if_neg (by omega)]
    split_ifs <;> simp [errRetryAfter, MbError.retryAfterOf]
  · intro hs
    subst hs
    simp only [handleResponse]
    rw [if_pos (by omega)]
    simp [errRetryAfter, MbError.retryAfterOf]
  · rfl
  · intro h1 h2 h3 h4
    simp [parseRetryAfter, h1, h2, h3, h4]
  · intro h1 h2
    by_cases hv : goTrimSpace v = "" <;> simp [parseRetryAfter, hv, h1, h2]

/-- C8 witness: concrete statuses and the header value "5". -/
theorem C8_retry_after_witness :
    errRetryAfter (handleResponse trivLib 0 "GET" "/p" 500 "" "5" "" true) = none ∧
    errRetryAfter (handleResponse trivLib 0 "GET" "/p" 429 "" "5" "" true) =
      some (5 * nsPerSecond) ∧
    parseRetryAfter trivLib 0 "5" = some (5 * nsPerSecond) :=
  ⟨(C8_retry_after trivLib 0 "GET" "/p" 500 "" "5" "" true "" 0).1 (by omega) (by omega),
   ((C8_retry_after trivLib 0 "GET" "/p" 429 "" "5" "" true "" 0).2.2.1 rfl).trans
     ((C8_retry_after trivLib 0 "GET" "/p" 429 "" "5" "" true "" 0).2.2.2.1),
   (C8_retry_after trivLib 0 "GET" "/p" 429 "" "5" "" true "" 0).2.2.2.1⟩

/-! ## C9 -/

/-- A first candidate that is non-blank after trimming is selected. -/
theorem firstNonEmptyString_cons_pos (x : String) (rest : List String)
    (h : goTrimSpace x ≠ "") : firstNonEmptyString (x :: rest) = goTrimSpace x := by
  unfold firstNonEmptyString
  rw [List.find?_cons_of_pos _ (by simpa using h)]

/-- A blank candidate is skipped. -/
theorem firstNonEmptyString_cons_neg (x : String) (rest : List String)
    (h : goTrimSpace x = "") : firstNonEmptyString (x :: rest) = firstNonEmptyString rest := by
  unfold firstNonEmptyString
  rw [List.find?_cons_of_neg _ (by simpa using h)]

/-- C9: best-effort business-error extraction. The `errCode` field is
stringified whether numeric or textual; the description is the first
non-blank of errText, errorDescription, message, error, description,
detail, falling back to the raw trimmed body; and the spec's P6 body
`{"errCode": 82, "message": "declined"}` at status 402 yields
businessErrorCode "82" and businessDescription "declined". -/
theorem C9_error_body_extraction (lib : GoLib) (body : String) (doc : JDoc)
    (parsed : ApiErrBody) (n : Int) (sv : String) (now : Int)
    (method path ct ra : String) (hasOut : Bool)
    (hb : body ≠ "") (hdoc : lib.jsonParseErrorBody body = some doc)
    (hdec : decodeApiErrBody doc = some parsed) :
    (parsed.errCode = some (.num n) → (parseAPIErrorBody lib body).1 = toString n) ∧
    (parsed.errCode = some (.str sv) → (parseAPIErrorBody lib body).1 = goTrimSpace sv) ∧
    (goTrimSpace parsed.errText ≠ "" →
      (parseAPIErrorBody lib body).2 = goTrimSpace parsed.errText) ∧
    (goTrimSpace parsed.errText = "" → goTrimSpace parsed.errorDescription = "" →
      goTrimSpace parsed.message ≠ "" →
      (parseAPIErrorBody lib body).2 = goTrimSpace parsed.message) ∧
    (goTrimSpace parsed.errText = "" → goTrimSpace parsed.errorDescription = "" →
      goTrimSpace parsed.message = "" → goTrimSpace parsed.errorStr = "" →
      goTrimSpace parsed.description = "" → goTrimSpace parsed.detail = "" →
      (parseAPIErrorBody lib body).2 = goTrimSpace body) ∧
    (lib.jsonParseErrorBody B82 = some docB82 →
      handleResponse lib now method path 402 ct ra B82 hasOut =
        .error (.api .unexpectedResponse method path 402 ct "82" "declined"
          (trimBody B82 4096) none)) := by
  refine ⟨?_, ?_, ?_, ?_, ?_, ?_⟩
  · intro he
    simp [parseAPIErrorBody, hb, hdoc, hdec, he, anyToString]
  · intro he
    simp [parseAPIErrorBody, hb, hdoc, hdec, he, anyToString]
  · intro h1
    have h1' : goTrimSpace (goTrimSpace parsed.errText) ≠ "" := by
      rw [goTrimSpace_idem]; exact h1
    simp [parseAPIErrorBody, hb, hdoc, hdec,
      firstNonEmptyString_cons_pos _ _ h1', goTrimSpace_idem, h1]
  · intro h1 h2 h3
    have h1' : goTrimSpace (goTrimSpace parsed.errText) = "" := by
      rw [goTrimSpace_idem]; exact h1
    have h2' : goTrimSpace (goTrimSpace parsed.errorDescription) = "" := by
      rw [goTrimSpace_idem]; exact h2
    have h3' : goTrimSpace (goTrimSpace parsed.message) ≠ "" := by
      rw [goTrimSpace_idem]; exact h3
    simp [parseAPIErrorBody, hb, hdoc, hdec,
      firstNonEmptyString_cons_neg _ _ h1', firstNonEmptyString_cons_neg _ _ h2',
      firstNonEmptyString_cons_pos _ _ h3', goTrimSpace_idem, h3]
  · intro h1 h2 h3 h4 h5 h6
    have h1' : goTrimSpace (goTrimSpace parsed.errText) = "" := by
      rw [goTrimSpace_idem]; exact h1
    have h2' : goTrimSpace (goTrimSpace parsed.errorDescription) = "" := by
      rw [goTrimSpace_idem]; exact h2
    have h3' : goTrimSpace (goTrimSpace parsed.message) = "" := by
      rw [goTrimSpace_idem]; exact h3
    have h4' : goTrimSpace (goTrimSpace parsed.errorStr) = "" := by
      rw [goTrimSpace_idem]; exact h4
    have h5' : goTrimSpace (goTrimSpace parsed.description) = "" := by
      rw [goTrimSpace_idem]; exact h5
    have h6' : goTrimSpace (goTrimSpace parsed.detail) = "" := by
      rw [goTrimSpace_idem]; exact h6
    have hfind : firstNonEmptyString
        [goTrimSpace parsed.errText, goTrimSpace parsed.errorDescription,
         goTrimSpace parsed.message, goTrimSpace parsed.errorStr,
         goTrimSpace parsed.description, goTrimSpace parsed.detail] = "" := by
      rw [firstNonEmptyString_cons_neg _ _ h1', firstNonEmptyString_cons_neg _ _ h2',
          firstNonEmptyString_cons_neg _ _ h3', firstNonEmptyString_cons_neg _ _ h4',
          firstNonEmptyString_cons_neg _ _ h5', firstNonEmptyString_cons_neg _ _ h6']
      rfl
    simp [parseAPIErrorBody, hb, hdoc, hdec, hfind]
  · intro hParse
    have hPB : parseAPIErrorBody lib B82 = ("82", "declined") := by
      unfold parseAPIErrorBody
      rw [if_neg (by decide : ¬(B82 = "")), hParse]
      rfl
    simp only [handleResponse]
    rw [if_pos (by omega : (402 : Nat) < 200 ∨ 300 ≤ 402)]
    rw [hPB]
    rfl

/-- C9 witness: the concrete P6 exchange, evaluated. -/
theorem C9_error_body_extraction_witness :
    handleResponse libB82 0 "POST" "/pay" 402 "" "" B82 true =
      .error (.api .unexpectedResponse "POST" "/pay" 402 "" "82" "declined"
        (trimBody B82 4096) none) :=
  (C9_error_body_extraction libB82 B82 docB82
    { errCode := some (.num 82), errText := "", errorDescription := "",
      message := "declined", errorStr := "", description := "", detail := "" }
    82 "" 0 "POST" "/pay" "" "" true (by decide) (by decide) (by decide)).2.2.2.2.2
    (by decide)

/-! ## C10 -/

/-- The request-token getter is already whitespace-trimmed. -/
theorem getToken_trimmed (req : Option Request) :
    goTrimSpace (Request.getToken req) = Request.getToken req := by
  cases req with
  | none => decide
  | some r =>
    cases hm : r.merchant with
    | none => simp [Request.getToken, hm]; decide
    | some m => simp [Request.getToken, hm, goTrimSpace_idem]

/-- The resolved token is always whitespace-trimmed. -/
theorem resolveToken_trimmed (cfg : ClientConfig) (req : Option Request) :
    goTrimSpace (resolveToken cfg req) = resolveToken cfg req := by
  cases req with
  | none => simp [resolveToken, goTrimSpace_idem]
  | some r =>
    by_cases h : goTrimSpace (Request.getToken (some r)) = ""
    · simp [resolveToken, h, goTrimSpace_idem]
    · simp [resolveToken, h, goTrimSpace_idem]

/-- Lemma: `doJSON` keeps a non-empty already-resolved token as the X-Token. -/
theorem doJSONResolveToken_of_resolved (cfg : ClientConfig) (req : Option Request)
    (h : resolveToken cfg req ≠ "") :
    doJSONResolveToken cfg (resolveToken cfg req) req = .ok (resolveToken cfg req) := by
  unfold doJSONResolveToken
  rw [resolveToken_trimmed]
  simp [h]

/-- Lemma: `(runCall ...)` always records exactly its one call. -/
theorem runCall_snd {α : Type} (result : Except MbError α) (call : HttpCall) :
    (runCall result call).2 = [call] := by
  cases result <;> rfl

theorem Verification_some (lib : GoLib) (cfg : ClientConfig) (r : Request) (dryRun : Bool) :
    Verification lib cfg (some r) dryRun = VerificationChecked lib cfg r dryRun := rfl

theorem Payment_some (lib : GoLib) (cfg : ClientConfig) (r : Request) (dryRun : Bool) :
    Payment lib cfg (some r) dryRun = PaymentChecked lib cfg r dryRun := rfl

theorem Status_some (lib : GoLib) (cfg : ClientConfig) (r : Request) (dryRun : Bool) :
    Status lib cfg (some r) dryRun = StatusChecked lib cfg r dryRun := rfl

theorem PublicKey_some (lib : GoLib) (cfg : ClientConfig) (r : Request) (dryRun : Bool) :
    PublicKey lib cfg (some r) dryRun = PublicKeyChecked lib cfg r dryRun := rfl

/-- An operation whose resolved token is empty fails up front. -/
theorem VerificationChecked_emptyToken (lib : GoLib) (cfg : ClientConfig) (r : Request)
    (dryRun : Bool) (h : resolveToken cfg (some r) = "") :
    VerificationChecked lib cfg r dryRun =
      (.error (.validation "verification" xTokenRequiredMsg), []) := by
  delta VerificationChecked
  rw [if_pos h]

theorem PaymentChecked_emptyToken (lib : GoLib) (cfg : ClientConfig) (r : Request)
    (dryRun : Bool) (h : resolveToken cfg (some r) = "") :
    PaymentChecked lib cfg r dryRun =
      (.error (.validation "payment" xTokenRequiredMsg), []) := by
  delta PaymentChecked
  rw [if_pos h]

theorem StatusChecked_emptyToken (lib : GoLib) (cfg : ClientConfig) (r : Request)
    (dryRun : Bool) (h : resolveToken cfg (some r) = "") :
    StatusChecked lib cfg r dryRun =
      (.error (.validation "status" xTokenRequiredMsg), []) := by
  delta StatusChecked
  rw [if_pos h]

theorem PublicKeyChecked_emptyToken (lib : GoLib) (cfg : ClientConfig) (r : Request)
    (dryRun : Bool) (h : resolveToken cfg (some r) = "") :
    PublicKeyChecked lib cfg r dryRun =
      (.error (.validation "pubkey" xTokenRequiredMsg), []) := by
  delta PublicKeyChecked
  rw [if_pos h]

/-- Lemma: `Verification` issues no request, or exactly one carrying the
resolved token. -/
theorem VerificationChecked_calls (lib : GoLib) (cfg : ClientConfig) (r : Request)
    (dryRun : Bool) :
    (VerificationChecked lib cfg r dryRun).2 = [] ∨
    (VerificationChecked lib cfg r dryRun).2 =
      [⟨"POST", PathInvoiceCreate, resolveToken cfg (some r)⟩] := by
  delta VerificationChecked
  by_cases h0 : resolveToken cfg (some r) = ""
  · left; rw [if_pos h0]
  · rw [if_neg h0]
    by_cases hA : Request.getAmount (some r) ≤ 0
    · left; rw [if_pos hA]
    · rw [if_neg hA]
      by_cases hW : Request.shouldSaveCard (some r) = true ∧
          goTrimSpace (Request.getWalletID (some r)) = ""
      · left; rw [if_pos hW]
      · rw [if_neg hW]
        by_cases hD : dryRun = true
        · left; rw [if_pos hD]
        · rw [if_neg hD, doJSONResolveToken_of_resolved cfg (some r) h0]
          right
          exact runCall_snd _ _

/-- Lemma: `Payment` issues no request, or exactly one carrying the resolved
token. -/
theorem PaymentChecked_calls (lib : GoLib) (cfg : ClientConfig) (r : Request)
    (dryRun : Bool) :
    (PaymentChecked lib cfg r dryRun).2 = [] ∨
    (PaymentChecked lib cfg r dryRun).2 =
      [⟨"POST", PathWalletPayment, resolveToken cfg (some r)⟩] := by
  delta PaymentChecked
  by_cases h0 : resolveToken cfg (some r) = ""
  · left; rw [if_pos h0]
  · rw [if_neg h0]
    by_cases hC : Request.getCardToken (some r) = ""
    · left; rw [if_pos hC]
    · rw [if_neg hC]
      by_cases hA : Request.getAmount (some r) ≤ 0
      · left; rw [if_pos hA]
      · rw [if_neg hA]
        by_cases hI : goTrimSpace (Request.getInitiationKind (some r)) = ""
        · left; rw [if_pos hI]
        · rw [if_neg hI]
          by_cases hR : Request.getInitiationKind (some r) = "client" ∧
              goTrimSpace ((Request.getRedirectURL (some r)).getD "") = ""
          · left; rw [if_pos hR]
          · rw [if_neg hR]
            by_cases hD : dryRun = true
            · left; rw [if_pos hD]
            · rw [if_neg hD, doJSONResolveToken_of_resolved cfg (some r) h0]
              right
              exact runCall_snd _ _

/-- Lemma: `Status` issues no request, or exactly one carrying the resolved
token. -/
theorem StatusChecked_calls (lib : GoLib) (cfg : ClientConfig) (r : Request)
    (dryRun : Bool) :
    (StatusChecked lib cfg r dryRun).2 = [] ∨
    (StatusChecked lib cfg r dryRun).2 =
      [⟨"GET", PathInvoiceStatus ++ "?invoiceId=" ++
        lib.queryEscape (Request.getInvoiceID (some r)), resolveToken cfg (some r)⟩] := by
  delta StatusChecked
  by_cases h0 : resolveToken cfg (some r) = ""
  · left; rw [if_pos h0]
  · rw [if_neg h0]
    by_cases hI : Request.getInvoiceID (some r) = ""
    · left; rw [if_pos hI]
    · rw [if_neg hI]
      by_cases hD : dryRun = true
      · left; rw [if_pos hD]
      · rw [if_neg hD, doJSONResolveToken_of_resolved cfg (some r) h0]
        right
        exact runCall_snd _ _

/-- Lemma: `PublicKey` issues no request, or exactly one carrying the resolved
token. -/
theorem PublicKeyChecked_calls (lib : GoLib) (cfg : ClientConfig) (r : Request)
    (dryRun : Bool) :
    (PublicKeyChecked lib cfg r dryRun).2 = [] ∨
    (PublicKeyChecked lib cfg r dryRun).2 =
      [⟨"GET", PathPubKey, resolveToken cfg (some r)⟩] := by
  delta PublicKeyChecked
  by_cases h0 : resolveToken cfg (some r) = ""
  · left; rw [if_pos h0]
  · rw [if_neg h0]
    by_cases hD : dryRun = true
    · left; rw [if_pos hD]
    · rw [if_neg hD, doJSONResolveToken_of_resolved cfg (some r) h0]
      right
      exact runCall_snd _ _

/-- C10: the effective credential for every outbound operation is the
trimmed per-request token when non-empty, otherwise the trimmed default
token (a whitespace-only per-request token falls back); when both are
blank every operation fails with its ValidationError before issuing any
HTTP request; and every HTTP request an operation does issue carries the
resolved token in X-Token. -/
theorem C10_token_precedence (lib : GoLib) (cfg : ClientConfig) (r : Request)
    (dryRun : Bool) (tok : String) :
    (resolveToken cfg (some r) =
      if Request.getToken (some r) = "" then goTrimSpace cfg.defaultToken
      else Request.getToken (some r)) ∧
    (goTrimSpace tok = "" →
      resolveToken cfg (some ⟨some ⟨tok, none, none⟩, r.paymentData, r.paymentMethod⟩) =
        goTrimSpace cfg.defaultToken) ∧
    (resolveToken cfg (some r) = "" →
      Verification lib cfg (some r) dryRun =
        (.error (.validation "verification" xTokenRequiredMsg), []) ∧
      Payment lib cfg (some r) dryRun =
        (.error (.validation "payment" xTokenRequiredMsg), []) ∧
      Status lib cfg (some r) dryRun =
        (.error (.validation "status" xTokenRequiredMsg), []) ∧
      PublicKey lib cfg (some r) dryRun =
        (.error (.validation "pubkey" xTokenRequiredMsg), [])) ∧
    (∀ call, call ∈ (Verification lib cfg (some r) dryRun).2 →
      call.token = resolveToken cfg (some r)) ∧
    (∀ call, call ∈ (Payment lib cfg (some r) dryRun).2 →
      call.token = resolveToken cfg (some r)) ∧
    (∀ call, call ∈ (Status lib cfg (some r) dryRun).2 →
      call.token = resolveToken cfg (some r)) ∧
    (∀ call, call ∈ (PublicKey lib cfg (some r) dryRun).2 →
      call.token = resolveToken cfg (some r)) := by
  refine ⟨?_, ?_, ?_, ?_, ?_, ?_, ?_⟩
  · simp only [resolveToken]
    rw [getToken_trimmed]
    by_cases h : Request.getToken (some r) = ""
    · simp [h]
    · simp [h]
  · intro h
    have hg : Request.getToken (some ⟨some ⟨tok, none, none⟩, r.paymentData, r.paymentMethod⟩) =
        goTrimSpace tok := rfl
    have h0 : goTrimSpace "" = "" := by decide
    simp [resolveToken, hg, goTrimSpace_idem, h, h0]
  · intro h
    rw [Verification_some, Payment_some, Status_some, PublicKey_some]
    exact ⟨VerificationChecked_emptyToken lib cfg r dryRun h,
      PaymentChecked_emptyToken lib cfg r dryRun h,
      StatusChecked_emptyToken lib cfg r dryRun h,
      PublicKeyChecked_emptyToken lib cfg r dryRun h⟩
  · intro call hc
    rw [Verification_some] at hc
    rcases VerificationChecked_calls lib cfg r dryRun with h | h <;> rw [h] at hc
    · simp at hc
    · simp at hc
      rw [hc]
  · intro call hc
    rw [Payment_some] at hc
    rcases PaymentChecked_calls lib cfg r dryRun with h | h <;> rw [h] at hc
    · simp at hc
    · simp at hc
      rw [hc]
  · intro call hc
    rw [Status_some] at hc
    rcases StatusChecked_calls lib cfg r dryRun with h | h <;> rw [h] at hc
    · simp at hc
    · simp at hc
      rw [hc]
  · intro call hc
    rw [PublicKey_some] at hc
    rcases PublicKeyChecked_calls lib cfg r dryRun with h | h <;> rw [h] at hc
    · simp at hc
    · simp at hc
      rw [hc]

/-- C10 witness: with a blank default token and no per-request token,
operations fail with their ValidationError and no request is issued. -/
theorem C10_token_precedence_witness :
    Verification trivLib cfgEmpty (some emptyRequest) false =
      (.error (.validation "verification" xTokenRequiredMsg), []) ∧
    PublicKey trivLib cfgEmpty (some emptyRequest) false =
      (.error (.validation "pubkey" xTokenRequiredMsg), []) ∧
    resolveToken cfgEmpty (some ⟨some ⟨" ", none, none⟩, none, none⟩) =
      goTrimSpace cfgEmpty.defaultToken :=
  ⟨((C10_token_precedence trivLib cfgEmpty emptyRequest false "").2.2.1 (by decide)).1,
   ((C10_token_precedence trivLib cfgEmpty emptyRequest false "").2.2.1 (by decide)).2.2.2,
   (C10_token_precedence trivLib cfgEmpty emptyRequest false " ").2.1 (by decide)⟩

end GoMonobank
